import Mathlib

/-!
Verification development for `torchmf.py`: a shallow embedding of the
interaction dataset (`Interactions`), the matrix-factorization modules
(`BaseModule`, `BPRModule.forward`) and the training pipeline
(`BasePipeline` with `fit`, `_fit_epoch`, `_validation_loss`).

Modelling conventions:
- Python exceptions are modelled with `Except PyError`.
- Tensor values are rationals (`ℚ`); tensors are lists.
- scipy sparse matrices are modelled in coordinate form (`ScipySpMat`);
  `tocoo()` is the identity on this representation.
- External randomness (torch's global generator) is modelled by a
  deterministic generator state `ℕ` advanced by an LCG; `nn.Embedding`
  initialization draws values sequentially from that state.
- `nn.Dropout` is modelled with an explicit per-element uniform draw
  function `draw : ℕ → ℚ` (values in `[0,1)`): in training mode element
  `k` is zeroed when `draw k < p` and survivors are rescaled by
  `1/(1-p)`; in evaluation mode dropout is the identity.
- The `DataLoader` shuffling and the optimizer are out-of-scope external
  collaborators; `fit` is parameterized over them (`FitEnv`): a shuffle
  order per epoch and an opaque parameter-update function `optStep`.
-/

/-- Python runtime errors that the modelled code can raise. -/
inductive PyError where
  | attributeError
  | indexError
  | runtimeError
deriving DecidableEq

/-- A scipy sparse matrix in coordinate form: declared shape
`(n_users, n_items)` and parallel arrays `row`, `col`, `data`. -/
structure ScipySpMat where
  shape : ℕ × ℕ
  row : List ℕ
  col : List ℕ
  data : List ℚ
deriving DecidableEq

/-- Number of stored entries of a coordinate matrix (`.nnz`). -/
def ScipySpMat.nnz (m : ScipySpMat) : ℕ := m.data.length

/-- State built by `Interactions.__init__` (torchmf.py lines 21-34): the
`train` flag, both coordinate matrices, and `n_users`/`n_items` taken
from the train matrix's declared shape. The row/col/val tensors are the
coordinate arrays of the stored matrices. -/
structure Interactions where
  train : Bool
  train_data : ScipySpMat
  test_data : ScipySpMat
  n_users : ℕ
  n_items : ℕ
deriving DecidableEq

/-- `Interactions.__init__(train_data, test_data=None, train=True)`.
The body unconditionally evaluates `self.test_data = test_data.tocoo()`
(line 24), so when `test_data` is `None` the attribute access `.tocoo`
raises `AttributeError`. Otherwise all fields are assigned and
construction never compares the two shapes. -/
def interactionsInit (train_data : ScipySpMat) (test_data : Option ScipySpMat)
    (train : Bool) : Except PyError Interactions :=
  match test_data with
  | none => .error .attributeError
  | some td =>
      .ok { train := train, train_data := train_data, test_data := td,
            n_users := train_data.shape.1, n_items := train_data.shape.2 }

/-- Indexing a 1-d torch tensor (here: a list) with a Python integer
index: a negative index `i` addresses position `i + length`; any
resulting position outside `[0, length)` raises `IndexError`. -/
def tensorGet {α : Type} (xs : List α) (d : α) (index : ℤ) : Except PyError α :=
  let n : ℤ := (xs.length : ℤ)
  let j : ℤ := if index < 0 then index + n else index
  if 0 ≤ j ∧ j < n then .ok (xs.getD j.toNat d) else .error .indexError

/-- `Interactions.__getitem__` (lines 36-46): reads the row, col and
value tensors of the split selected by the `train` flag and returns
`((row, col), val)`. -/
def Interactions.getitem (s : Interactions) (index : ℤ) :
    Except PyError ((ℕ × ℕ) × ℚ) :=
  if s.train then do
    let row ← tensorGet s.train_data.row 0 index
    let col ← tensorGet s.train_data.col 0 index
    let val ← tensorGet s.train_data.data 0 index
    pure ((row, col), val)
  else do
    let row ← tensorGet s.test_data.row 0 index
    let col ← tensorGet s.test_data.col 0 index
    let val ← tensorGet s.test_data.data 0 index
    pure ((row, col), val)

/-- `Interactions.__len__` (lines 48-52): the `nnz` of the split
selected by the `train` flag. -/
def Interactions.len (s : Interactions) : ℕ :=
  if s.train then s.train_data.nnz else s.test_data.nnz

/-- A factor vector. -/
abbrev Vec := List ℚ

/-- The parameter tensors owned by a module: per-user and per-item bias
embeddings (`nn.Embedding(n, 1)`, stored as one scalar per id) and
factor embeddings (`nn.Embedding(n, n_factors)`). -/
structure Params where
  user_biases : List ℚ
  item_biases : List ℚ
  user_embeddings : List Vec
  item_embeddings : List Vec

/-- State of a `BaseModule` (lines 60-98): sizes, parameters, dropout
probability, the `nn.Module` training flag (`True` after construction,
toggled by `.train()` / `.eval()`), and the attached loss function. -/
structure BaseModule where
  n_users : ℕ
  n_items : ℕ
  n_factors : ℕ
  params : Params
  dropout_p : ℚ
  training : Bool
  loss_function : List ℚ → List ℚ → ℚ

/-- Dot product of two vectors: elementwise product, then `.sum`. -/
def dot (v w : Vec) : ℚ := (List.zipWith (fun a b => a * b) v w).sum

/-- Training-mode dropout over a vector, zeroing element `k` when
`draw k < p` and rescaling survivors by `1/(1-p)`. -/
def dropMask (p : ℚ) (draw : ℕ → ℚ) : ℕ → Vec → Vec
  | _, [] => []
  | k, x :: xs => (if draw k < p then 0 else x / (1 - p)) :: dropMask p draw (k + 1) xs

/-- `nn.Dropout(p)` applied to a vector: active only in training mode,
identity in evaluation mode. -/
def dropoutApply (training : Bool) (p : ℚ) (draw : ℕ → ℚ) (v : Vec) : Vec :=
  if training then dropMask p draw 0 v else v

/-- `BaseModule.forward` for one (user, item) pair (lines 100-126):
looks up the four embeddings (an out-of-range id raises `IndexError`)
and returns `user_bias + item_bias + (dropout(ue) * dropout(ui)).sum`.
`du`/`di` are the uniform draws of the two independent dropout calls. -/
def BaseModule.forward1 (m : BaseModule) (du di : ℕ → ℚ) (u i : ℕ) :
    Except PyError ℚ :=
  match m.params.user_embeddings.get? u, m.params.item_embeddings.get? i,
        m.params.user_biases.get? u, m.params.item_biases.get? i with
  | some ue, some ie, some ub, some ib =>
      .ok (ub + ib + dot (dropoutApply m.training m.dropout_p du ue)
                         (dropoutApply m.training m.dropout_p di ie))
  | _, _, _, _ => .error .indexError

/-- Batched `BaseModule.forward` over parallel index lists; `k` is the
row offset into the per-row draw families `du`, `di`. A length mismatch
between the two index tensors is a runtime error. -/
def forwardAux (m : BaseModule) (du di : ℕ → ℕ → ℚ) :
    ℕ → List ℕ → List ℕ → Except PyError (List ℚ)
  | _, [], [] => .ok []
  | k, u :: us, i :: is => do
      let p ← m.forward1 (du k) (di k) u i
      let ps ← forwardAux m du di (k + 1) us is
      pure (p :: ps)
  | _, _, _ => .error .runtimeError

/-- Batched `BaseModule.forward`: one predicted score per (user, item)
pair. -/
def BaseModule.forwardB (m : BaseModule) (du di : ℕ → ℕ → ℚ)
    (users items : List ℕ) : Except PyError (List ℚ) :=
  forwardAux m du di 0 users items

/-- `BPRModule.forward` for one (user, pos_item, neg_item) triple
(lines 146-153): `ue = dropout(user_emb[u])`,
`ui = dropout(item_emb[pos] - item_emb[neg])`, and the returned margin
is `(ue * ui).sum + user_bias[u] + (item_bias[pos] - item_bias[neg])`. -/
def BPRModule.forward1 (m : BaseModule) (du di : ℕ → ℚ) (u posi negi : ℕ) :
    Except PyError ℚ :=
  match m.params.user_embeddings.get? u, m.params.item_embeddings.get? posi,
        m.params.item_embeddings.get? negi, m.params.user_biases.get? u,
        m.params.item_biases.get? posi, m.params.item_biases.get? negi with
  | some ue, some ip, some ineg, some ub, some ibp, some ibn =>
      .ok (dot (dropoutApply m.training m.dropout_p du ue)
               (dropoutApply m.training m.dropout_p di
                 (List.zipWith (fun a b => a - b) ip ineg))
           + ub + (ibp - ibn))
  | _, _, _, _, _, _ => .error .indexError

/-- The LCG advancing the modelled global torch generator state. -/
def lcg (s : ℕ) : ℕ := (1103515245 * s + 12345) % 2147483648

/-- One draw from the modelled global generator: a small rational value
(the distribution of torch's init is irrelevant to every claim; only
the dependence on the generator state matters) and the advanced state. -/
def randQ (s : ℕ) : ℚ × ℕ :=
  let s' := lcg s
  (((s' % 97 : ℕ) : ℚ), s')

/-- Draw `n` values sequentially from the generator. -/
def drawList : ℕ → ℕ → List ℚ × ℕ
  | g, 0 => ([], g)
  | g, Nat.succ k =>
      let (x, g') := randQ g
      let (xs, g'') := drawList g' k
      (x :: xs, g'')

/-- Draw an `r × c` matrix of values sequentially from the generator. -/
def drawMat : ℕ → ℕ → ℕ → List Vec × ℕ
  | g, 0, _ => ([], g)
  | g, Nat.succ r, c =>
      let (v, g') := drawList g c
      let (vs, g'') := drawMat g' r c
      (v :: vs, g'')

/-- Random initialization of the four embedding tables of a freshly
constructed module, drawing from the global generator state `g`
(models the `nn.Embedding(...)` constructions of lines 90-93). -/
def initParams (g : ℕ) (nu ni nf : ℕ) : Params × ℕ :=
  let (ub, g1) := drawList g nu
  let (ib, g2) := drawList g1 ni
  let (ue, g3) := drawMat g2 nu nf
  let (ie, g4) := drawMat g3 ni nf
  ({ user_biases := ub, item_biases := ib,
     user_embeddings := ue, item_embeddings := ie }, g4)

/-- State built by `BasePipeline.__init__` (lines 163-213). Since
construction raises whenever `test_data is None` (the `Interactions`
constructor dereferences it), every successfully constructed pipeline
carries both splits. -/
structure BasePipeline where
  train_interactions : Interactions
  test_interactions : Interactions
  n_users : ℕ
  n_items : ℕ
  n_factors : ℕ
  batch_size : ℕ
  dropout_p : ℚ
  lr : ℚ
  weight_decay : ℚ
  n_epochs : ℕ
  model : BaseModule
  warm_start : Bool
  losses_train : List ℚ
  losses_test : List ℚ
  losses_epoch : List ℕ
  verbose : Bool

/-- External collaborators consumed by `fit`: the `DataLoader` shuffle
order per epoch for each split, the per-epoch/per-batch dropout draw
families, and the opaque autodiff+optimizer capability `optStep`
(gradient computation and `optimizer.step()` over the current
parameters for the current batch). -/
structure FitEnv where
  order : ℕ → List ℕ
  testOrder : ℕ → List ℕ
  du : ℕ → ℕ → ℕ → ℕ → ℚ
  di : ℕ → ℕ → ℕ → ℕ → ℚ
  optStep : Params → List ((ℕ × ℕ) × ℚ) → Params

/-- The `DataLoader` fetching `dataset[i]` for each sampler index `i`. -/
def gather (s : Interactions) (order : List ℕ) :
    Except PyError (List ((ℕ × ℕ) × ℚ)) :=
  order.mapM (fun i => s.getitem (Int.ofNat i))

/-- Split a list into consecutive batches of `B`, with the list length
as structural fuel (sufficient whenever `B ≥ 1`). -/
def chunksFuel {α : Type} (B : ℕ) : ℕ → List α → List (List α)
  | _, [] => []
  | 0, l => [l]
  | Nat.succ fuel, x :: xs => ((x :: xs).take B) :: chunksFuel B fuel ((x :: xs).drop B)

/-- The mini-batches produced by a `DataLoader` with `batch_size=1024`
over the already-shuffled entries (lines 180-182, 187-189). -/
def chunks1024 {α : Type} (l : List α) : List (List α) :=
  chunksFuel 1024 l.length l

/-- `nn.MSELoss(size_average=False)`: sum of squared errors. -/
def mseLossSum (preds targets : List ℚ) : ℚ :=
  (List.zipWith (fun p t => (p - t) ^ 2) preds targets).sum

/-- The per-batch body of `_fit_epoch` (lines 229-238), folded over the
batches: forward pass, loss against the true values, then one opaque
gradient/optimizer step, accumulating the batch losses. `b` is the
batch index within the epoch `e`. -/
def trainBatches (env : FitEnv) (e : ℕ) :
    BaseModule → ℕ → List (List ((ℕ × ℕ) × ℚ)) → Except PyError (ℚ × BaseModule)
  | m, _, [] => .ok (0, m)
  | m, b, batch :: rest => do
      let preds ← m.forwardB (env.du e b) (env.di e b)
        (batch.map (fun x => x.1.1)) (batch.map (fun x => x.1.2))
      let l := m.loss_function preds (batch.map (fun x => x.2))
      let m' : BaseModule := { m with params := env.optStep m.params batch }
      let (rest', m'') ← trainBatches env e m' (b + 1) rest
      pure (l + rest', m'')

/-- `BasePipeline._fit_epoch` (lines 226-240): switch the model to
training mode, iterate the shuffled train split in batches of 1024,
and return the accumulated loss divided by `len(train_interactions)`
together with the updated model. -/
def fitEpoch (m0 : BaseModule) (train : Interactions) (env : FitEnv) (e : ℕ) :
    Except PyError (ℚ × BaseModule) := do
  let m : BaseModule := { m0 with training := true }
  let entries ← gather train (env.order e)
  let (total, m') ← trainBatches env e m 0 (chunks1024 entries)
  pure (total / (train.len : ℚ), m')

/-- The per-batch body of `_validation_loss` (lines 245-251): forward
pass and loss accumulation only; no gradient or optimizer call. -/
def valBatches (m : BaseModule) (env : FitEnv) (e : ℕ) :
    ℕ → List (List ((ℕ × ℕ) × ℚ)) → Except PyError ℚ
  | _, [] => .ok 0
  | b, batch :: rest => do
      let preds ← m.forwardB (env.du e b) (env.di e b)
        (batch.map (fun x => x.1.1)) (batch.map (fun x => x.1.2))
      let l := m.loss_function preds (batch.map (fun x => x.2))
      let rest' ← valBatches m env e (b + 1) rest
      pure (l + rest')

/-- `BasePipeline._validation_loss` (lines 242-253): switch the model
to evaluation mode, accumulate the loss over the shuffled test split in
batches of 1024, and return it divided by `len(test_interactions)`,
together with the model as the pass leaves it. -/
def validationLoss (m0 : BaseModule) (test : Interactions) (env : FitEnv) (e : ℕ) :
    Except PyError (ℚ × BaseModule) := do
  let m : BaseModule := { m0 with training := false }
  let entries ← gather test (env.testOrder e)
  let total ← valBatches m env e 0 (chunks1024 entries)
  pure (total / (test.len : ℚ), m)

/-- The body of the `for epoch in range(n_epochs)` loop of `fit`
(lines 215-224), with `e` the current epoch index and `k` the number of
epochs still to run: one training epoch appended to `losses['train']`,
one validation pass appended to `losses['test']` (the pipeline always
carries a test split, so the `is not None` test of line 219 holds), and
the epoch index appended to `losses['epoch']`. -/
def fitFrom (env : FitEnv) : ℕ → ℕ → BasePipeline → Except PyError BasePipeline
  | _, 0, pl => .ok pl
  | e, Nat.succ k, pl => do
      let (tl, m') ← fitEpoch pl.model pl.train_interactions env e
      let pl1 : BasePipeline :=
        { pl with model := m', losses_train := pl.losses_train ++ [tl] }
      let (vl, m'') ← validationLoss pl1.model pl1.test_interactions env e
      let pl2 : BasePipeline :=
        { pl1 with model := m'', losses_test := pl1.losses_test ++ [vl] }
      let pl3 : BasePipeline :=
        { pl2 with losses_epoch := pl2.losses_epoch ++ [e] }
      fitFrom env (e + 1) k pl3

/-- `BasePipeline.fit` (lines 215-224). -/
def BasePipeline.fit (pl : BasePipeline) (env : FitEnv) :
    Except PyError BasePipeline :=
  fitFrom env 0 pl.n_epochs pl

/-- `BasePipeline.__init__` (lines 163-213): build both `Interactions`
datasets (raising when `test_data is None`), size the model from the
train matrix's declared shape, randomly initialize its parameters from
the current global generator state `g`, bind the (opaque) optimizer,
start with empty loss histories, and only THEN, when a `random_seed`
was given, seed the global generator (lines 211-213) -- after the
parameters have already been drawn. Returns the pipeline and the
resulting global generator state. -/
def basePipelineInit (train_data : ScipySpMat) (test_data : Option ScipySpMat)
    (n_factors batch_size : ℕ) (dropout_p lr weight_decay : ℚ)
    (loss_function : List ℚ → List ℚ → ℚ) (n_epochs : ℕ) (verbose : Bool)
    (random_seed : Option ℕ) (g : ℕ) : Except PyError (BasePipeline × ℕ) := do
  let ti ← interactionsInit train_data test_data true
  let si ← interactionsInit train_data test_data false
  let nu := train_data.shape.1
  let ni := train_data.shape.2
  let (ps, g') := initParams g nu ni n_factors
  let model : BaseModule :=
    { n_users := nu, n_items := ni, n_factors := n_factors, params := ps,
      dropout_p := dropout_p, training := true,
      loss_function := loss_function }
  let g'' := match random_seed with | some sd => sd | none => g'
  pure ({ train_interactions := ti, test_interactions := si, n_users := nu,
          n_items := ni, n_factors := n_factors, batch_size := batch_size,
          dropout_p := dropout_p, lr := lr, weight_decay := weight_decay,
          n_epochs := n_epochs, model := model, warm_start := false,
          losses_train := [], losses_test := [], losses_epoch := [],
          verbose := verbose }, g'')

/-- The row-index tensor of the split selected by the `train` flag. -/
def Interactions.rows (s : Interactions) : List ℕ :=
  if s.train then s.train_data.row else s.test_data.row

/-- The column-index tensor of the split selected by the `train` flag. -/
def Interactions.cols (s : Interactions) : List ℕ :=
  if s.train then s.train_data.col else s.test_data.col

/-- The value tensor of the split selected by the `train` flag. -/
def Interactions.vals (s : Interactions) : List ℚ :=
  if s.train then s.train_data.data else s.test_data.data

/-- In-bounds nonnegative index: `tensorGet` returns the element. -/
theorem tensorGet_in {α : Type} (xs : List α) (d : α) (i : ℤ)
    (h0 : 0 ≤ i) (h1 : i < (xs.length : ℤ)) :
    tensorGet xs d i = .ok (xs.getD i.toNat d) := by
  simp only [tensorGet]
  rw [if_neg (by omega : ¬ i < 0)]
  exact if_pos ⟨h0, h1⟩

/-- Negative index within `[-length, 0)`: `tensorGet` wraps around. -/
theorem tensorGet_wrap {α : Type} (xs : List α) (d : α) (i : ℤ)
    (h0 : i < 0) (h1 : 0 ≤ i + (xs.length : ℤ)) :
    tensorGet xs d i = .ok (xs.getD (i + (xs.length : ℤ)).toNat d) := by
  simp only [tensorGet]
  rw [if_pos h0]
  exact if_pos ⟨h1, by omega⟩

/-- Index outside `[-length, length)`: `tensorGet` raises `IndexError`. -/
theorem tensorGet_out {α : Type} (xs : List α) (d : α) (i : ℤ)
    (h : i < -(xs.length : ℤ) ∨ (xs.length : ℤ) ≤ i) :
    tensorGet xs d i = .error .indexError := by
  rcases h with h | h
  · simp only [tensorGet]
    rw [if_pos (by omega : i < 0)]
    exact if_neg (by omega)
  · simp only [tensorGet]
    rw [if_neg (by omega : ¬ i < 0)]
    exact if_neg (by omega)

/-- Claim C1 (code bug in the source): constructing with only a train
split never succeeds. For every train matrix, leaving `test_data` as
its default `None` makes `Interactions.__init__` evaluate
`None.tocoo()` (line 24) and raise `AttributeError`, both when the
store is built directly and when `BasePipeline.__init__` builds it, so
no usable store or pipeline is ever returned. -/
theorem C1_construction_without_test_raises :
    (∀ (td : ScipySpMat) (b : Bool),
      interactionsInit td none b = .error .attributeError) ∧
    (∀ (td : ScipySpMat) (nf bs : ℕ) (p lr wd : ℚ)
      (lf : List ℚ → List ℚ → ℚ) (ne : ℕ) (vb : Bool)
      (sd : Option ℕ) (g : ℕ),
      basePipelineInit td none nf bs p lr wd lf ne vb sd g =
        .error .attributeError) := by
  refine ⟨fun td b => rfl, fun td nf bs p lr wd lf ne vb sd g => rfl⟩

/-- Train matrix with declared shape (1, 1), used for claim C3. -/
def trainMatC3 : ScipySpMat := { shape := (1, 1), row := [0], col := [0], data := [5] }

/-- Test matrix with declared shape (2, 3), disagreeing with `trainMatC3`. -/
def testMatC3 : ScipySpMat := { shape := (2, 3), row := [1], col := [2], data := [1] }

/-- Claim C3 counterexample: with a (1, 1) train matrix and a (2, 3)
test matrix -- declared shapes that disagree -- construction does not
fail with any error (no `ShapeError` exists in the source): it returns
a store sized from the train split. -/
theorem C3_mismatched_shapes_construction_succeeds :
    trainMatC3.shape ≠ testMatC3.shape ∧
    interactionsInit trainMatC3 (some testMatC3) true =
      .ok { train := true, train_data := trainMatC3, test_data := testMatC3,
            n_users := 1, n_items := 1 } := by
  exact ⟨by decide, rfl⟩

/-- Claim C3 amended: `Interactions.__init__` never compares the two
declared shapes. With both splits supplied it always succeeds --
whether or not the shapes agree -- and takes `(n_users, n_items)` from
the train split's declared shape. -/
theorem C3_construction_ignores_shapes (td ts : ScipySpMat) (b : Bool) :
    interactionsInit td (some ts) b =
      .ok { train := b, train_data := td, test_data := ts,
            n_users := td.shape.1, n_items := td.shape.2 } := rfl

/-- The per-pair score formula of `BaseModule.forward` as a total
function of the looked-up parameters (the spec's
`user_bias[u] + item_bias[i] + dot(dropout(uf[u]), dropout(if[i]))`). -/
def scoreOf (m : BaseModule) (du di : ℕ → ℚ) (u i : ℕ) : ℚ :=
  m.params.user_biases.getD u 0 + m.params.item_biases.getD i 0 +
    dot (dropoutApply m.training m.dropout_p du (m.params.user_embeddings.getD u []))
        (dropoutApply m.training m.dropout_p di (m.params.item_embeddings.getD i []))

/-- The evaluation-mode per-pair score: dropout is the identity, so the
score is `user_bias[u] + item_bias[i] + dot(uf[u], if[i])`. -/
def evalScoreOf (m : BaseModule) (u i : ℕ) : ℚ :=
  m.params.user_biases.getD u 0 + m.params.item_biases.getD i 0 +
    dot (m.params.user_embeddings.getD u []) (m.params.item_embeddings.getD i [])

/-- The `BPRModule.forward` margin with dropout the identity:
`dot(uf[u], if[pos] - if[neg]) + user_bias[u] + (item_bias[pos] - item_bias[neg])`. -/
def bprEvalScore (m : BaseModule) (u posi negi : ℕ) : ℚ :=
  dot (m.params.user_embeddings.getD u [])
      (List.zipWith (fun a b => a - b) (m.params.item_embeddings.getD posi [])
        (m.params.item_embeddings.getD negi []))
    + m.params.user_biases.getD u 0
    + (m.params.item_biases.getD posi 0 - m.params.item_biases.getD negi 0)

/-- An in-bounds `get?` returns the `getD` element. -/
theorem get?_lt {α : Type} (l : List α) (n : ℕ) (h : n < l.length) (d : α) :
    l.get? n = some (l.getD n d) := by
  induction l generalizing n with
  | nil => simp at h
  | cons a as ih =>
    cases n with
    | zero => simp [List.getD]
    | succ k =>
      simp only [List.length_cons] at h
      simpa [List.getD] using ih k (by omega)

/-- In-range single-pair forward pass: the source's lookup-and-score
computation returns exactly the score formula. -/
theorem forward1_spec (m : BaseModule) (du di : ℕ → ℚ) (u i : ℕ)
    (h1 : u < m.params.user_embeddings.length)
    (h2 : i < m.params.item_embeddings.length)
    (h3 : u < m.params.user_biases.length)
    (h4 : i < m.params.item_biases.length) :
    m.forward1 du di u i = .ok (scoreOf m du di u i) := by
  unfold BaseModule.forward1 scoreOf
  rw [get?_lt _ _ h1 [], get?_lt _ _ h2 [], get?_lt _ _ h3 0, get?_lt _ _ h4 0]

/-- In-range BPR forward pass: the source's lookup-and-score
computation returns the dropout form of the BPR margin. -/
theorem bprForward1_spec (m : BaseModule) (du di : ℕ → ℚ) (u posi negi : ℕ)
    (h1 : u < m.params.user_embeddings.length)
    (h2 : posi < m.params.item_embeddings.length)
    (h3 : negi < m.params.item_embeddings.length)
    (h4 : u < m.params.user_biases.length)
    (h5 : posi < m.params.item_biases.length)
    (h6 : negi < m.params.item_biases.length) :
    BPRModule.forward1 m du di u posi negi =
      .ok (dot (dropoutApply m.training m.dropout_p du (m.params.user_embeddings.getD u []))
               (dropoutApply m.training m.dropout_p di
                 (List.zipWith (fun a b => a - b) (m.params.item_embeddings.getD posi [])
                   (m.params.item_embeddings.getD negi [])))
           + m.params.user_biases.getD u 0
           + (m.params.item_biases.getD posi 0 - m.params.item_biases.getD negi 0)) := by
  unfold BPRModule.forward1
  rw [get?_lt _ _ h1 [], get?_lt _ _ h2 [], get?_lt _ _ h3 [],
    get?_lt _ _ h4 0, get?_lt _ _ h5 0, get?_lt _ _ h6 0]

/-- With `p = 0` and nonnegative uniform draws, training-mode dropout
keeps every element and rescales by `1/(1-0) = 1`. -/
theorem dropMask_zero (draw : ℕ → ℚ) (hd : ∀ k, 0 ≤ draw k) :
    ∀ (k : ℕ) (v : Vec), dropMask 0 draw k v = v := by
  intro k v
  induction v generalizing k with
  | nil => rfl
  | cons x xs ih => simp [dropMask, not_lt.mpr (hd k), ih (k + 1)]

/-- Dropout is the identity in evaluation mode, and also in training
mode when `p = 0` (with draws from `[0,1)`). -/
theorem dropoutApply_id (training : Bool) (p : ℚ) (draw : ℕ → ℚ) (v : Vec)
    (h : training = false ∨ (p = 0 ∧ ∀ k, 0 ≤ draw k)) :
    dropoutApply training p draw v = v := by
  rcases h with h | ⟨hp, hd⟩
  · simp [dropoutApply, h]
  · cases training with
    | false => rfl
    | true => subst hp; exact dropMask_zero draw hd 0 v

/-- Unfolding `dot` on cons cells. -/
theorem dot_cons (a b : ℚ) (as bs : Vec) :
    dot (a :: as) (b :: bs) = a * b + dot as bs := rfl

/-- Dot with an empty right vector. -/
theorem dot_nil_right (v : Vec) : dot v [] = 0 := by
  cases v <;> rfl

/-- With `p = 1` and draws in `[0,1)`, every element of the left vector
is dropped, so the factor-dot term vanishes. -/
theorem dot_dropMask_one (draw : ℕ → ℚ) (hd : ∀ k, draw k < 1) :
    ∀ (k : ℕ) (v w : Vec), dot (dropMask 1 draw k v) w = 0 := by
  intro k v
  induction v generalizing k with
  | nil => intro w; simp [dropMask, dot]
  | cons x xs ih =>
    intro w
    cases w with
    | nil => exact dot_nil_right _
    | cons y ys =>
      rw [dropMask, if_pos (hd k), dot_cons, zero_mul, zero_add]
      exact ih (k + 1) ys

/-- In evaluation mode the score formula reduces to its dropout-free
form. -/
theorem scoreOf_eval (m : BaseModule) (du di : ℕ → ℚ) (u i : ℕ)
    (h : m.training = false) : scoreOf m du di u i = evalScoreOf m u i := by
  simp [scoreOf, evalScoreOf, dropoutApply, h]

/-- Binding a successful `Except` computation applies the
continuation. -/
theorem except_bind_ok {ε α β : Type} (a : α) (f : α → Except ε β) :
    (Except.ok a >>= f : Except ε β) = f a := rfl

/-- Batched forward pass, in range: one score per pair, each given by
the score formula at the pair's indices (draw rows offset by `k`). -/
theorem forwardAux_spec (m : BaseModule) (du di : ℕ → ℕ → ℚ) :
    ∀ (users items : List ℕ) (k : ℕ),
      items.length = users.length →
      (∀ j, j < users.length →
        users.getD j 0 < m.params.user_embeddings.length ∧
        users.getD j 0 < m.params.user_biases.length ∧
        items.getD j 0 < m.params.item_embeddings.length ∧
        items.getD j 0 < m.params.item_biases.length) →
      forwardAux m du di k users items =
        .ok ((List.range users.length).map fun j =>
          scoreOf m (du (k + j)) (di (k + j)) (users.getD j 0) (items.getD j 0)) := by
  intro users
  induction users with
  | nil =>
    intro items k hlen hin
    cases items with
    | nil => rfl
    | cons i is => simp at hlen
  | cons u us ih =>
    intro items k hlen hin
    cases items with
    | nil => simp at hlen
    | cons i is =>
      have h0 := hin 0 (by simp)
      simp only [List.getD_cons_zero] at h0
      have hrest : forwardAux m du di (k + 1) us is =
          .ok ((List.range us.length).map fun j =>
            scoreOf m (du (k + 1 + j)) (di (k + 1 + j)) (us.getD j 0) (is.getD j 0)) := by
        refine ih is (k + 1) (by simpa using hlen) ?_
        intro j hj
        have := hin (j + 1) (by simp; omega)
        simpa [List.getD_cons_succ] using this
      rw [forwardAux]
      rw [forward1_spec m (du k) (di k) u i h0.1 h0.2.2.1 h0.2.1 h0.2.2.2]
      rw [hrest, except_bind_ok, except_bind_ok]
      refine congrArg Except.ok ?_
      rw [List.length_cons, List.range_succ_eq_map, List.map_cons, List.map_map]
      congr 1
      refine List.map_congr_left ?_
      intro a ha
      simp only [Function.comp, Nat.succ_eq_add_one, List.getD_cons_succ]
      have harith : k + 1 + a = k + (a + 1) := by omega
      rw [harith]

/-- Claim C4 (confirmed): for every batch of in-range (user, item)
index pairs and every parameter state, the pointwise model's forward
pass returns one score per pair equal to
`user_bias[u] + item_bias[i] + dot(dropout(uf[u]), dropout(if[i]))`,
and in evaluation mode -- where dropout is the identity -- the score
equals `user_bias[u] + item_bias[i] + dot(uf[u], if[i])`. -/
theorem C4_pointwise_prediction_formula (m : BaseModule) (du di : ℕ → ℕ → ℚ)
    (users items : List ℕ) (hlen : items.length = users.length)
    (hin : ∀ j, j < users.length →
      users.getD j 0 < m.params.user_embeddings.length ∧
      users.getD j 0 < m.params.user_biases.length ∧
      items.getD j 0 < m.params.item_embeddings.length ∧
      items.getD j 0 < m.params.item_biases.length) :
    m.forwardB du di users items =
      .ok ((List.range users.length).map fun j =>
        scoreOf m (du j) (di j) (users.getD j 0) (items.getD j 0)) ∧
    (m.training = false →
      m.forwardB du di users items =
        .ok ((List.range users.length).map fun j =>
          evalScoreOf m (users.getD j 0) (items.getD j 0))) := by
  have h := forwardAux_spec m du di users items 0 hlen hin
  have h' : m.forwardB du di users items =
      .ok ((List.range users.length).map fun j =>
        scoreOf m (du j) (di j) (users.getD j 0) (items.getD j 0)) := by
    rw [BaseModule.forwardB, h]
    refine congrArg Except.ok (List.map_congr_left ?_)
    intro a ha
    rw [Nat.zero_add]
  refine ⟨h', fun ht => ?_⟩
  rw [h']
  refine congrArg Except.ok (List.map_congr_left ?_)
  intro a ha
  exact scoreOf_eval m _ _ _ _ ht

/-- A concrete evaluation-mode module used to instantiate claim C4. -/
def mC4 : BaseModule :=
  { n_users := 1, n_items := 1, n_factors := 2,
    params := { user_biases := [1], item_biases := [2],
                user_embeddings := [[1, 0]], item_embeddings := [[3, 4]] },
    dropout_p := 0, training := false, loss_function := mseLossSum }

/-- Witness for claim C4 at a concrete in-range one-pair batch. -/
theorem C4_pointwise_prediction_formula_witness :
    mC4.forwardB (fun _ _ => 1/2) (fun _ _ => 1/2) [0] [0] =
      .ok ((List.range [0].length).map fun j =>
        scoreOf mC4 ((fun _ _ => (1/2 : ℚ)) j) ((fun _ _ => (1/2 : ℚ)) j)
          ([0].getD j 0) ([0].getD j 0)) ∧
    (mC4.training = false →
      mC4.forwardB (fun _ _ => 1/2) (fun _ _ => 1/2) [0] [0] =
        .ok ((List.range [0].length).map fun j =>
          evalScoreOf mC4 ([0].getD j 0) ([0].getD j 0))) :=
  C4_pointwise_prediction_formula mC4 (fun _ _ => 1/2) (fun _ _ => 1/2) [0] [0]
    (by decide)
    (by
      intro j hj
      have hj1 : j < 1 := by simpa using hj
      have hj0 : j = 0 := by omega
      subst hj0
      decide)

/-- The dot against an elementwise difference is antisymmetric in the
two difference operands. -/
theorem dot_zipWith_sub_antisymm :
    ∀ (v a b : Vec),
      dot v (List.zipWith (fun x y => x - y) a b) =
        -(dot v (List.zipWith (fun x y => x - y) b a)) := by
  intro v
  induction v with
  | nil => intro a b; simp [dot]
  | cons x xs ih =>
    intro a b
    cases a with
    | nil =>
      cases b <;> simp [dot, dot_nil_right, List.zipWith_nil_left, List.zipWith_nil_right]
    | cons a0 as =>
      cases b with
      | nil =>
        simp [dot, dot_nil_right, List.zipWith_nil_left, List.zipWith_nil_right]
      | cons b0 bs =>
        rw [List.zipWith_cons_cons, List.zipWith_cons_cons, dot_cons, dot_cons, ih as bs]
        ring

/-- A concrete evaluation-mode BPR parameter state with a nonzero user
bias, zero factors and zero item biases, used for claim C5. -/
def mC5 : BaseModule :=
  { n_users := 1, n_items := 2, n_factors := 1,
    params := { user_biases := [1], item_biases := [0, 0],
                user_embeddings := [[0]], item_embeddings := [[0], [0]] },
    dropout_p := 0, training := false, loss_function := mseLossSum }

/-- Claim C5 counterexample: on `mC5` (dropout identity: evaluation
mode), the margin of triple `(0, pos = 1, neg = 0)` is `1`, and after
swapping pos and neg the margin is again `1`, not `-1`: the user-bias
term `user_bias[0] = 1` is invariant under the swap, so the pairwise
score is not antisymmetric. -/
theorem C5_swap_does_not_negate_margin :
    BPRModule.forward1 mC5 (fun _ => 1/2) (fun _ => 1/2) 0 1 0 = .ok 1 ∧
    BPRModule.forward1 mC5 (fun _ => 1/2) (fun _ => 1/2) 0 0 1 = .ok 1 ∧
    (1 : ℚ) ≠ -1 := by
  refine ⟨?_, ?_, by norm_num⟩ <;>
    norm_num [BPRModule.forward1, mC5, dot, dropoutApply]

/-- Claim C5 amended: with dropout acting as the identity (evaluation
mode, or `dropout_p = 0` with draws from `[0,1)`), swapping `pos` and
`neg` negates the factor-dot and item-bias parts of the BPR margin but
leaves the user-bias term unchanged: the swapped margin equals
`2 * user_bias[u] - margin`. Exact antisymmetry holds only when
`user_bias[u] = 0`. -/
theorem C5_swap_flips_margin_around_user_bias (m : BaseModule)
    (du di du' di' : ℕ → ℚ) (u posi negi : ℕ)
    (hid : m.training = false ∨
      (m.dropout_p = 0 ∧ (∀ k, 0 ≤ du k) ∧ (∀ k, 0 ≤ di k) ∧
        (∀ k, 0 ≤ du' k) ∧ (∀ k, 0 ≤ di' k)))
    (h1 : u < m.params.user_embeddings.length)
    (h2 : posi < m.params.item_embeddings.length)
    (h3 : negi < m.params.item_embeddings.length)
    (h4 : u < m.params.user_biases.length)
    (h5 : posi < m.params.item_biases.length)
    (h6 : negi < m.params.item_biases.length) :
    BPRModule.forward1 m du di u posi negi = .ok (bprEvalScore m u posi negi) ∧
    BPRModule.forward1 m du' di' u negi posi =
      .ok (2 * m.params.user_biases.getD u 0 - bprEvalScore m u posi negi) := by
  have hdu : ∀ v, dropoutApply m.training m.dropout_p du v = v := fun v =>
    dropoutApply_id _ _ _ v (by tauto)
  have hdi : ∀ v, dropoutApply m.training m.dropout_p di v = v := fun v =>
    dropoutApply_id _ _ _ v (by tauto)
  have hdu' : ∀ v, dropoutApply m.training m.dropout_p du' v = v := fun v =>
    dropoutApply_id _ _ _ v (by tauto)
  have hdi' : ∀ v, dropoutApply m.training m.dropout_p di' v = v := fun v =>
    dropoutApply_id _ _ _ v (by tauto)
  constructor
  · rw [bprForward1_spec m du di u posi negi h1 h2 h3 h4 h5 h6, hdu, hdi]
    rfl
  · rw [bprForward1_spec m du' di' u negi posi h1 h3 h2 h4 h6 h5, hdu', hdi']
    refine congrArg Except.ok ?_
    rw [bprEvalScore, dot_zipWith_sub_antisymm]
    ring

/-- Witness for (amended) claim C5 on the concrete state `mC5`. -/
theorem C5_swap_flips_margin_around_user_bias_witness :
    BPRModule.forward1 mC5 (fun _ => 1/2) (fun _ => 3/4) 0 1 0 =
      .ok (bprEvalScore mC5 0 1 0) ∧
    BPRModule.forward1 mC5 (fun _ => 1/4) (fun _ => 2/3) 0 0 1 =
      .ok (2 * mC5.params.user_biases.getD 0 0 - bprEvalScore mC5 0 1 0) :=
  C5_swap_flips_margin_around_user_bias mC5 (fun _ => 1/2) (fun _ => 3/4)
    (fun _ => 1/4) (fun _ => 2/3) 0 1 0 (Or.inl rfl)
    (by decide) (by decide) (by decide) (by decide) (by decide) (by decide)

/-- A model constructed with `dropout_p = 1`, switched to evaluation
mode (the state `_validation_loss` puts it in before predicting), with
unit factors and zero biases; used for claim C7. -/
def mC7 : BaseModule :=
  { n_users := 1, n_items := 1, n_factors := 1,
    params := { user_biases := [0], item_biases := [0],
                user_embeddings := [[1]], item_embeddings := [[1]] },
    dropout_p := 1, training := false, loss_function := mseLossSum }

/-- Claim C7 counterexample: on `mC7` (dropout_p = 1, evaluation mode)
the prediction for the in-range pair (0, 0) is `1`: the factor-dot term
is `dot([1], [1]) = 1`, not zero, and the score differs from
`user_bias[0] + item_bias[0] = 0`, because in evaluation mode
`nn.Dropout` is the identity regardless of `p`. -/
theorem C7_eval_mode_dot_term_not_zero :
    mC7.forward1 (fun _ => 1/2) (fun _ => 1/2) 0 0 = .ok 1 ∧
    mC7.params.user_biases.getD 0 0 + mC7.params.item_biases.getD 0 0 = 0 ∧
    (1 : ℚ) ≠ 0 := by
  refine ⟨?_, by norm_num [mC7], by norm_num⟩
  norm_num [BaseModule.forward1, mC7, dot, dropoutApply]

/-- Claim C7 amended: in training mode (where dropout is active), a
model with `dropout_p = 1` and uniform draws in `[0,1)` drops every
user-factor element, so the factor-dot term of every in-range
prediction is zero and each predicted score is
`user_bias[u] + item_bias[i]`. -/
theorem C7_training_mode_dropout_one_kills_dot (m : BaseModule)
    (du di : ℕ → ℕ → ℚ) (users items : List ℕ)
    (htr : m.training = true) (hp : m.dropout_p = 1)
    (hd : ∀ j k, du j k < 1)
    (hlen : items.length = users.length)
    (hin : ∀ j, j < users.length →
      users.getD j 0 < m.params.user_embeddings.length ∧
      users.getD j 0 < m.params.user_biases.length ∧
      items.getD j 0 < m.params.item_embeddings.length ∧
      items.getD j 0 < m.params.item_biases.length) :
    m.forwardB du di users items =
      .ok ((List.range users.length).map fun j =>
        m.params.user_biases.getD (users.getD j 0) 0 +
          m.params.item_biases.getD (items.getD j 0) 0) := by
  have h := forwardAux_spec m du di users items 0 hlen hin
  rw [BaseModule.forwardB, h]
  refine congrArg Except.ok (List.map_congr_left ?_)
  intro a ha
  simp only [scoreOf, htr, hp, dropoutApply, if_true]
  rw [dot_dropMask_one (du (0 + a)) (hd (0 + a)) 0 _ _, add_zero]

/-- The training-mode sibling of `mC7` (a freshly constructed module
with `dropout_p = 1` before any `.eval()` call). -/
def mC7t : BaseModule :=
  { n_users := 1, n_items := 1, n_factors := 1,
    params := { user_biases := [0], item_biases := [0],
                user_embeddings := [[1]], item_embeddings := [[1]] },
    dropout_p := 1, training := true, loss_function := mseLossSum }

/-- Witness for (amended) claim C7 on the concrete state `mC7t`. -/
theorem C7_training_mode_dropout_one_kills_dot_witness :
    mC7t.forwardB (fun _ _ => 1/2) (fun _ _ => 1/2) [0] [0] =
      .ok ((List.range [0].length).map fun j =>
        mC7t.params.user_biases.getD ([0].getD j 0) 0 +
          mC7t.params.item_biases.getD ([0].getD j 0) 0) :=
  C7_training_mode_dropout_one_kills_dot mC7t (fun _ _ => 1/2) (fun _ _ => 1/2)
    [0] [0] rfl rfl (fun j k => by norm_num) (by decide)
    (by
      intro j hj
      have hj1 : j < 1 := by simpa using hj
      have hj0 : j = 0 := by omega
      subst hj0
      decide)

/-- `__getitem__` expressed over the active split's arrays: both
branches of the source run the same three tensor reads. -/
theorem getitem_eq (s : Interactions) (index : ℤ) :
    s.getitem index = (do
      let row ← tensorGet s.rows 0 index
      let col ← tensorGet s.cols 0 index
      let val ← tensorGet s.vals 0 index
      pure ((row, col), val)) := by
  rw [Interactions.getitem]
  cases h : s.train <;>
    simp [Interactions.rows, Interactions.cols, Interactions.vals, h]

/-- Claim C6 amended: for a store whose active split has parallel
arrays of length `len(split)` (the coo invariant), `get` succeeds on
`[0, len)` with the triple at `index`, but it also succeeds on
`[-len, 0)` with the triple at `index + len` (torch tensors accept
Python negative indices); it fails with `IndexError` exactly on the
indices outside `[-len, len)`. -/
theorem C6_getitem_bounds (s : Interactions) (index : ℤ)
    (hr : s.rows.length = s.len) (hc : s.cols.length = s.len)
    (hv : s.vals.length = s.len) :
    (0 ≤ index → index < (s.len : ℤ) →
      s.getitem index =
        .ok ((s.rows.getD index.toNat 0, s.cols.getD index.toNat 0),
          s.vals.getD index.toNat 0)) ∧
    (-(s.len : ℤ) ≤ index → index < 0 →
      s.getitem index =
        .ok ((s.rows.getD (index + (s.len : ℤ)).toNat 0,
          s.cols.getD (index + (s.len : ℤ)).toNat 0),
          s.vals.getD (index + (s.len : ℤ)).toNat 0)) ∧
    ((index < -(s.len : ℤ) ∨ (s.len : ℤ) ≤ index) →
      s.getitem index = .error .indexError) := by
  refine ⟨fun h0 h1 => ?_, fun h0 h1 => ?_, fun hout => ?_⟩
  · rw [getitem_eq,
      tensorGet_in s.rows 0 index h0 (by rw [hr]; exact h1),
      except_bind_ok,
      tensorGet_in s.cols 0 index h0 (by rw [hc]; exact h1),
      except_bind_ok,
      tensorGet_in s.vals 0 index h0 (by rw [hv]; exact h1),
      except_bind_ok]
    rfl
  · rw [getitem_eq,
      tensorGet_wrap s.rows 0 index h1 (by rw [hr]; omega),
      except_bind_ok,
      tensorGet_wrap s.cols 0 index h1 (by rw [hc]; omega),
      except_bind_ok,
      tensorGet_wrap s.vals 0 index h1 (by rw [hv]; omega),
      except_bind_ok, hr, hc, hv]
    rfl
  · rw [getitem_eq, tensorGet_out s.rows 0 index (by rw [hr]; omega)]
    rfl

/-- The train matrix backing the concrete store for claim C6. -/
def trainMatC6 : ScipySpMat :=
  { shape := (2, 2), row := [0, 1], col := [1, 0], data := [5, 3] }

/-- The test matrix backing the concrete store for claim C6. -/
def testMatC6 : ScipySpMat :=
  { shape := (2, 2), row := [0], col := [0], data := [4] }

/-- The train-split store built from `trainMatC6`/`testMatC6`. -/
def storeC6 : Interactions :=
  { train := true, train_data := trainMatC6, test_data := testMatC6,
    n_users := 2, n_items := 2 }

/-- Claim C6 counterexample: on the constructed train split of length
2, the index `-1` lies outside `[0, 2)`, so per the claim `get` should
fail with `IndexError`; instead the code returns the last entry
`((1, 0), 3.0)` (torch negative indexing). -/
theorem C6_negative_index_returns_entry :
    interactionsInit trainMatC6 (some testMatC6) true = .ok storeC6 ∧
    storeC6.getitem (-1) = .ok ((1, 0), 3) ∧
    storeC6.getitem (-1) ≠ .error .indexError := by
  refine ⟨rfl, rfl, ?_⟩
  rw [show storeC6.getitem (-1) = Except.ok ((1, 0), (3 : ℚ)) from rfl]
  simp

/-- Witness for (amended) claim C6 on the concrete store `storeC6` at
index 0. -/
theorem C6_getitem_bounds_witness :
    (0 ≤ (0 : ℤ) → (0 : ℤ) < (storeC6.len : ℤ) →
      storeC6.getitem 0 =
        .ok ((storeC6.rows.getD (0 : ℤ).toNat 0, storeC6.cols.getD (0 : ℤ).toNat 0),
          storeC6.vals.getD (0 : ℤ).toNat 0)) ∧
    (-(storeC6.len : ℤ) ≤ (0 : ℤ) → (0 : ℤ) < 0 →
      storeC6.getitem 0 =
        .ok ((storeC6.rows.getD ((0 : ℤ) + (storeC6.len : ℤ)).toNat 0,
          storeC6.cols.getD ((0 : ℤ) + (storeC6.len : ℤ)).toNat 0),
          storeC6.vals.getD ((0 : ℤ) + (storeC6.len : ℤ)).toNat 0)) ∧
    (((0 : ℤ) < -(storeC6.len : ℤ) ∨ (storeC6.len : ℤ) ≤ (0 : ℤ)) →
      storeC6.getitem 0 = .error .indexError) :=
  C6_getitem_bounds storeC6 0 rfl rfl rfl

/-- Inversion of a successful `Except` bind. -/
theorem bind_eq_ok {ε α β : Type} {e : Except ε α} {f : α → Except ε β} {b : β}
    (h : (e >>= f) = .ok b) : ∃ a, e = .ok a ∧ f a = .ok b := by
  cases e with
  | error err => exact Except.noConfusion h
  | ok a => exact ⟨a, rfl, h⟩

/-- A successfully constructed pipeline starts with empty loss
histories and records the requested number of epochs. -/
theorem basePipelineInit_fresh (td ts : ScipySpMat) (nf bs : ℕ)
    (p lr wd : ℚ) (lf : List ℚ → List ℚ → ℚ) (ne : ℕ) (vb : Bool)
    (sd : Option ℕ) (g : ℕ) (pl : BasePipeline) (g' : ℕ)
    (h : basePipelineInit td (some ts) nf bs p lr wd lf ne vb sd g = .ok (pl, g')) :
    pl.losses_train = [] ∧ pl.losses_test = [] ∧ pl.losses_epoch = [] ∧
      pl.n_epochs = ne := by
  rw [basePipelineInit] at h
  obtain ⟨ti, h1, h⟩ := bind_eq_ok h
  obtain ⟨si, h2, h⟩ := bind_eq_ok h
  have h3 := Except.ok.inj h
  rw [Prod.mk.injEq] at h3
  rw [← h3.1]
  exact ⟨rfl, rfl, rfl, rfl⟩

/-- Each completed iteration block of `fit` appends exactly one entry
to each loss history; `k` remaining epochs append exactly `k` entries
to each, and never remove or reset existing entries. -/
theorem fitFrom_ok_append (env : FitEnv) :
    ∀ (k e : ℕ) (pl pl' : BasePipeline),
      fitFrom env e k pl = .ok pl' →
      ∃ a b c, pl'.losses_train = pl.losses_train ++ a ∧ a.length = k ∧
        pl'.losses_test = pl.losses_test ++ b ∧ b.length = k ∧
        pl'.losses_epoch = pl.losses_epoch ++ c ∧ c.length = k ∧
        pl'.n_epochs = pl.n_epochs := by
  intro k
  induction k with
  | zero =>
    intro e pl pl' h
    have hpl := Except.ok.inj h
    subst hpl
    exact ⟨[], [], [], by simp, rfl, by simp, rfl, by simp, rfl, rfl⟩
  | succ n ih =>
    intro e pl pl' h
    rw [fitFrom] at h
    obtain ⟨x, h1, h⟩ := bind_eq_ok h
    obtain ⟨tl, m'⟩ := x
    obtain ⟨y, h2, h⟩ := bind_eq_ok h
    obtain ⟨vl, m''⟩ := y
    obtain ⟨a, b, c, ha, hal, hb, hbl, hc, hcl, hne⟩ := ih (e + 1) _ pl' h
    refine ⟨tl :: a, vl :: b, e :: c, ?_, ?_, ?_, ?_, ?_, ?_, ?_⟩
    · rw [ha]; simp
    · simp [hal]
    · rw [hb]; simp
    · simp [hbl]
    · rw [hc]; simp
    · simp [hcl]
    · exact hne

/-- Claim C8 (confirmed): one completed validation pass
(`_validation_loss`) leaves every model parameter tensor unchanged --
it reads the parameters to score the test batches but never invokes
the optimizer; the only model state it touches is the train/eval mode
flag. -/
theorem C8_validation_preserves_parameters (m0 : BaseModule)
    (test : Interactions) (env : FitEnv) (e : ℕ) (q : ℚ) (m' : BaseModule)
    (h : validationLoss m0 test env e = .ok (q, m')) :
    m'.params.user_biases = m0.params.user_biases ∧
    m'.params.item_biases = m0.params.item_biases ∧
    m'.params.user_embeddings = m0.params.user_embeddings ∧
    m'.params.item_embeddings = m0.params.item_embeddings := by
  rw [validationLoss] at h
  obtain ⟨entries, h1, h⟩ := bind_eq_ok h
  obtain ⟨total, h2, h⟩ := bind_eq_ok h
  have h3 := Except.ok.inj h
  rw [Prod.mk.injEq] at h3
  rw [← h3.2]
  exact ⟨rfl, rfl, rfl, rfl⟩

/-- A concrete training-mode model with nontrivial parameters, used to
run a validation pass for claim C8. -/
def mC8 : BaseModule :=
  { n_users := 1, n_items := 1, n_factors := 1,
    params := { user_biases := [1], item_biases := [1],
                user_embeddings := [[2]], item_embeddings := [[3]] },
    dropout_p := 1/50, training := true, loss_function := mseLossSum }

/-- The sparse matrix backing the claim C8 test split. -/
def testMatC8 : ScipySpMat := { shape := (1, 1), row := [0], col := [0], data := [2] }

/-- The test-split store used for claim C8. -/
def storeC8 : Interactions :=
  { train := false, train_data := testMatC8, test_data := testMatC8,
    n_users := 1, n_items := 1 }

/-- The external collaborators used by the concrete claim C8 run. -/
def envC8 : FitEnv :=
  { order := fun _ => [0], testOrder := fun _ => [0],
    du := fun _ _ _ _ => 1/2, di := fun _ _ _ _ => 1/2,
    optStep := fun p _ => p }

/-- The concrete validation pass of claim C8. -/
def valRunC8 : Except PyError (ℚ × BaseModule) := validationLoss mC8 storeC8 envC8 0

/-- The loss returned by the concrete claim C8 validation pass. -/
def valLossC8 : ℚ := match valRunC8 with | .ok x => x.1 | .error _ => 0

/-- The model state after the concrete claim C8 validation pass. -/
def valModelC8 : BaseModule := match valRunC8 with | .ok x => x.2 | .error _ => mC8

/-- Witness for claim C8: the concrete validation pass completes and
every parameter tensor is unchanged. -/
theorem C8_validation_preserves_parameters_witness :
    valModelC8.params.user_biases = mC8.params.user_biases ∧
    valModelC8.params.item_biases = mC8.params.item_biases ∧
    valModelC8.params.user_embeddings = mC8.params.user_embeddings ∧
    valModelC8.params.item_embeddings = mC8.params.item_embeddings :=
  C8_validation_preserves_parameters mC8 storeC8 envC8 0 valLossC8 valModelC8 rfl

/-- Claim C2 (code bug): when test data IS supplied, a freshly
constructed pipeline whose `fit()` completes has exactly `n_epochs`
entries in `losses['train']` and in `losses['test']`. The claim's
no-test branch, however, is unreachable in the source: with
`test_data = None` the pipeline constructor itself raises (line 24,
`None.tocoo()`), so `fit()` can never run, let alone complete with
`losses['test']` absent. -/
theorem C2_epoch_counts_and_unreachable_no_test (td ts : ScipySpMat)
    (nf bs : ℕ) (p lr wd : ℚ) (lf : List ℚ → List ℚ → ℚ) (ne : ℕ)
    (vb : Bool) (sd : Option ℕ) (g : ℕ) (pl : BasePipeline) (g' : ℕ)
    (env : FitEnv) (pl' : BasePipeline)
    (hinit : basePipelineInit td (some ts) nf bs p lr wd lf ne vb sd g = .ok (pl, g'))
    (hfit : pl.fit env = .ok pl') :
    pl'.losses_train.length = ne ∧ pl'.losses_test.length = ne ∧
    (∀ (td2 : ScipySpMat) (nf2 bs2 : ℕ) (p2 lr2 wd2 : ℚ)
      (lf2 : List ℚ → List ℚ → ℚ) (ne2 : ℕ) (vb2 : Bool) (sd2 : Option ℕ)
      (g2 : ℕ),
      basePipelineInit td2 none nf2 bs2 p2 lr2 wd2 lf2 ne2 vb2 sd2 g2 =
        .error .attributeError) := by
  obtain ⟨h1, h2, h3, h4⟩ :=
    basePipelineInit_fresh td ts nf bs p lr wd lf ne vb sd g pl g' hinit
  rw [BasePipeline.fit] at hfit
  obtain ⟨a, b, c, ha, hal, hb, hbl, hc, hcl, hne⟩ :=
    fitFrom_ok_append env pl.n_epochs 0 pl pl' hfit
  refine ⟨?_, ?_, fun _ _ _ _ _ _ _ _ _ _ _ => rfl⟩
  · rw [ha, h1, List.nil_append, hal, h4]
  · rw [hb, h2, List.nil_append, hbl, h4]

/-- The empty coordinate matrix, used only by the inert fallback
pipeline below. -/
def emptyMat : ScipySpMat := { shape := (0, 0), row := [], col := [], data := [] }

/-- An empty store, used only by the inert fallback pipeline below. -/
def emptyStore (b : Bool) : Interactions :=
  { train := b, train_data := emptyMat, test_data := emptyMat,
    n_users := 0, n_items := 0 }

/-- An empty model, used only by the inert fallback pipeline below. -/
def emptyModel : BaseModule :=
  { n_users := 0, n_items := 0, n_factors := 0,
    params := { user_biases := [], item_biases := [],
                user_embeddings := [], item_embeddings := [] },
    dropout_p := 0, training := true, loss_function := mseLossSum }

/-- An inert pipeline used only as the fallback of concrete-run
extractions whose error branches are unreachable. -/
def dummyPipeline : BasePipeline :=
  { train_interactions := emptyStore true, test_interactions := emptyStore false,
    n_users := 0, n_items := 0, n_factors := 0, batch_size := 0,
    dropout_p := 0, lr := 0, weight_decay := 0, n_epochs := 0,
    model := emptyModel, warm_start := false, losses_train := [],
    losses_test := [], losses_epoch := [], verbose := false }

/-- Train matrix of the concrete claim C2 run. -/
def tdC2 : ScipySpMat := { shape := (1, 1), row := [0], col := [0], data := [2] }

/-- Test matrix of the concrete claim C2 run. -/
def tsC2 : ScipySpMat := { shape := (1, 1), row := [0], col := [0], data := [1] }

/-- External collaborators of the concrete claim C2 run. -/
def envC2 : FitEnv :=
  { order := fun _ => [0], testOrder := fun _ => [0],
    du := fun _ _ _ _ => 1/2, di := fun _ _ _ _ => 1/2,
    optStep := fun p _ => p }

/-- The concrete claim C2 pipeline construction (one epoch). -/
def initRunC2 : Except PyError (BasePipeline × ℕ) :=
  basePipelineInit tdC2 (some tsC2) 0 32 0 (1/100) 0 mseLossSum 1 false (some 7) 3

/-- The pipeline constructed by the concrete claim C2 run. -/
def plC2 : BasePipeline := match initRunC2 with | .ok x => x.1 | .error _ => dummyPipeline

/-- The generator state after the concrete claim C2 construction. -/
def gC2 : ℕ := match initRunC2 with | .ok x => x.2 | .error _ => 0

/-- The pipeline after the concrete claim C2 `fit()`. -/
def plC2' : BasePipeline :=
  match plC2.fit envC2 with | .ok pl => pl | .error _ => dummyPipeline

/-- Witness for claim C2 at the concrete one-epoch run. -/
theorem C2_epoch_counts_and_unreachable_no_test_witness :
    plC2'.losses_train.length = 1 ∧ plC2'.losses_test.length = 1 ∧
    (∀ (td2 : ScipySpMat) (nf2 bs2 : ℕ) (p2 lr2 wd2 : ℚ)
      (lf2 : List ℚ → List ℚ → ℚ) (ne2 : ℕ) (vb2 : Bool) (sd2 : Option ℕ)
      (g2 : ℕ),
      basePipelineInit td2 none nf2 bs2 p2 lr2 wd2 lf2 ne2 vb2 sd2 g2 =
        .error .attributeError) :=
  C2_epoch_counts_and_unreachable_no_test tdC2 tsC2 0 32 0 (1/100) 0 mseLossSum
    1 false (some 7) 3 plC2 gC2 envC2 plC2' rfl rfl

/-- Claim C10 (confirmed): with a test split, the three loss histories
are all empty right after construction; every completed `fit()` call
appends exactly `n_epochs` further entries to each of the three
histories (never removing or resetting earlier entries), and therefore
preserves the equal-length invariant
`len(losses['epoch']) = len(losses['train']) = len(losses['test'])`. -/
theorem C10_loss_histories_invariant :
    (∀ (td ts : ScipySpMat) (nf bs : ℕ) (p lr wd : ℚ)
      (lf : List ℚ → List ℚ → ℚ) (ne : ℕ) (vb : Bool) (sd : Option ℕ)
      (g : ℕ) (pl : BasePipeline) (g' : ℕ),
      basePipelineInit td (some ts) nf bs p lr wd lf ne vb sd g = .ok (pl, g') →
      pl.losses_train = [] ∧ pl.losses_test = [] ∧ pl.losses_epoch = []) ∧
    (∀ (pl : BasePipeline) (env : FitEnv) (pl' : BasePipeline),
      pl.fit env = .ok pl' →
      ∃ a b c, pl'.losses_train = pl.losses_train ++ a ∧ a.length = pl.n_epochs ∧
        pl'.losses_test = pl.losses_test ++ b ∧ b.length = pl.n_epochs ∧
        pl'.losses_epoch = pl.losses_epoch ++ c ∧ c.length = pl.n_epochs ∧
        ((pl.losses_train.length = pl.losses_test.length ∧
          pl.losses_test.length = pl.losses_epoch.length) →
          (pl'.losses_train.length = pl'.losses_test.length ∧
            pl'.losses_test.length = pl'.losses_epoch.length))) := by
  constructor
  · intro td ts nf bs p lr wd lf ne vb sd g pl g' h
    obtain ⟨h1, h2, h3, _⟩ :=
      basePipelineInit_fresh td ts nf bs p lr wd lf ne vb sd g pl g' h
    exact ⟨h1, h2, h3⟩
  · intro pl env pl' h
    rw [BasePipeline.fit] at h
    obtain ⟨a, b, c, ha, hal, hb, hbl, hc, hcl, _⟩ :=
      fitFrom_ok_append env pl.n_epochs 0 pl pl' h
    refine ⟨a, b, c, ha, hal, hb, hbl, hc, hcl, fun hinv => ?_⟩
    constructor
    · rw [ha, hb]; simp [hal, hbl, hinv.1]
    · rw [hb, hc]; simp [hbl, hcl, hinv.2]

/-- Train matrix of the concrete claim C10 run. -/
def tdC10 : ScipySpMat := { shape := (1, 1), row := [0], col := [0], data := [3] }

/-- Test matrix of the concrete claim C10 run. -/
def tsC10 : ScipySpMat := { shape := (1, 1), row := [0], col := [0], data := [1] }

/-- External collaborators of the concrete claim C10 run. -/
def envC10 : FitEnv :=
  { order := fun _ => [0], testOrder := fun _ => [0],
    du := fun _ _ _ _ => 1/2, di := fun _ _ _ _ => 1/2,
    optStep := fun p _ => p }

/-- The concrete claim C10 pipeline construction (two epochs). -/
def initRunC10 : Except PyError (BasePipeline × ℕ) :=
  basePipelineInit tdC10 (some tsC10) 0 32 0 (1/100) 0 mseLossSum 2 false (some 5) 0

/-- The pipeline constructed by the concrete claim C10 run. -/
def plC10 : BasePipeline :=
  match initRunC10 with | .ok x => x.1 | .error _ => dummyPipeline

/-- The generator state after the concrete claim C10 construction. -/
def gC10 : ℕ := match initRunC10 with | .ok x => x.2 | .error _ => 0

/-- The pipeline after the concrete claim C10 `fit()`. -/
def plC10' : BasePipeline :=
  match plC10.fit envC10 with | .ok pl => pl | .error _ => dummyPipeline

/-- Witness for claim C10 at the concrete two-epoch run: histories are
empty at construction, and after `fit()` each history grew by exactly
`n_epochs = 2` entries and the three lengths agree. -/
theorem C10_loss_histories_invariant_witness :
    (plC10.losses_train = [] ∧ plC10.losses_test = [] ∧ plC10.losses_epoch = []) ∧
    plC10'.losses_train.length = plC10.losses_train.length + plC10.n_epochs ∧
    plC10'.losses_test.length = plC10.losses_test.length + plC10.n_epochs ∧
    (plC10'.losses_train.length = plC10'.losses_test.length ∧
      plC10'.losses_test.length = plC10'.losses_epoch.length) := by
  have hfresh := C10_loss_histories_invariant.1 tdC10 tsC10 0 32 0 (1/100) 0
    mseLossSum 2 false (some 5) 0 plC10 gC10 rfl
  obtain ⟨a, b, c, ha, hal, hb, hbl, hc, hcl, hpres⟩ :=
    C10_loss_histories_invariant.2 plC10 envC10 plC10' rfl
  refine ⟨hfresh, ?_, ?_, ?_⟩
  · rw [ha]; simp [hal]
  · rw [hb]; simp [hbl]
  · exact hpres (by simp [hfresh.1, hfresh.2.1, hfresh.2.2])

/-- Train matrix of the two concrete claim C9 runs. -/
def tdC9 : ScipySpMat := { shape := (1, 1), row := [0], col := [0], data := [2] }

/-- Test matrix of the two concrete claim C9 runs. -/
def tsC9 : ScipySpMat := { shape := (1, 1), row := [0], col := [0], data := [1] }

/-- External collaborators of the two concrete claim C9 runs. The
shuffle orders, the dropout draws and the optimizer step are identical
in both runs: after `torch.manual_seed(seed)` (line 212) the generator
states of the two runs coincide, so everything drawn AFTER the seeding
is the same. Only the model parameters, drawn BEFORE the seeding, can
differ. -/
def envC9 : FitEnv :=
  { order := fun _ => [0], testOrder := fun _ => [0],
    du := fun _ _ _ _ => 1/2, di := fun _ _ _ _ => 1/2,
    optStep := fun p _ => p }

/-- One full run of claim C9: construct the pipeline with
`random_seed = 42` from ambient global generator state `g`, call
`fit()` (one epoch, n_factors = 0), and return `losses['train']`;
an error anywhere yields `[]`. -/
def runC9 (g : ℕ) : List ℚ :=
  match basePipelineInit tdC9 (some tsC9) 0 32 0 (1/100) 0 mseLossSum 1 false
      (some 42) g with
  | .ok x =>
    match x.1.fit envC9 with
    | .ok pl' => pl'.losses_train
    | .error _ => []
  | .error _ => []

/-- The closed form of the single recorded train loss of `runC9 g`:
the user and item biases are the first two draws from the ambient
generator state `g` (taken before the seed is applied), the factor
vectors are empty (`n_factors = 0`), and the epoch's loss is the sum of
squared errors over the one training entry divided by `nnz = 1`. -/
def lossValC9 (g : ℕ) : ℚ :=
  ((((lcg g % 97 : ℕ) : ℚ) + ((lcg (lcg g) % 97 : ℕ) : ℚ) + 0 - 2) ^ 2 + 0 + 0) /
    ((1 : ℕ) : ℚ)

/-- Claim C9 (code bug in the source): `BasePipeline.__init__` seeds
the global generators (lines 211-213) only AFTER the model's parameters
have been drawn from them (line 200), so two otherwise identical
constructions with the same seed, same data and same hyperparameters,
starting from different ambient generator states (here 0 and 1),
draw different initial parameters and record different
`losses['train']` -- both runs completing normally. -/
theorem C9_same_seed_different_train_losses :
    runC9 0 ≠ runC9 1 ∧ runC9 0 = [lossValC9 0] ∧ runC9 1 = [lossValC9 1] := by
  refine ⟨?_, rfl, rfl⟩
  rw [show runC9 0 = [lossValC9 0] from rfl, show runC9 1 = [lossValC9 1] from rfl]
  norm_num [lossValC9, lcg]
